import Mathlib

/-!
Verification of the client-side session-gating mechanism of the
Quizz-App-Frontend repository: the token store (`src/utils/auth.js`)
and the route guard (`src/components/ProtectedRoute.js`).

The browser's `localStorage` is modelled as an association list from
string keys to string values with the standard Web-Storage map
semantics: `getItem` returns the stored string or `none` (JS `null`),
`setItem` overwrites the entry for the key (appending it if absent),
`removeItem` deletes every entry for the key.  JS argument coercion of
`setItem`'s value parameter to a DOM string (`null` becomes the literal
string "null", `undefined` becomes "undefined") is modelled by
`JSValue.toDOMString`.
-/

/-- A browser `localStorage` state: a list of key/value string pairs. -/
abbrev Store : Type := List (String × String)

/-- The empty storage state. -/
def Store.empty : Store := []

/-- Web-Storage `getItem`: the value stored under `k`, or `none` (JS `null`)
when the key is absent. -/
def getItem : Store → String → Option String
  | [], _ => none
  | (k', v) :: rest, k => if k' = k then some v else getItem rest k

/-- Web-Storage `setItem`: overwrite the entry for `k` (first occurrence),
appending a fresh entry when the key is absent. -/
def setItem : Store → String → String → Store
  | [], k, v => [(k, v)]
  | (k', v') :: rest, k, v =>
      if k' = k then (k, v) :: rest else (k', v') :: setItem rest k v

/-- Web-Storage `removeItem`: delete every entry stored under `k`. -/
def removeItem : Store → String → Store
  | [], _ => []
  | (k', v') :: rest, k =>
      if k' = k then removeItem rest k else (k', v') :: removeItem rest k

/-- A JavaScript value passed to `setItem`; the DOM API coerces it to a
string. Only the cases relevant to the auth layer are modelled. -/
inductive JSValue where
  | str (s : String)
  | null
  | undefined
deriving DecidableEq

/-- JS `ToString` coercion applied by `localStorage.setItem` to its value
argument: strings pass through, `null` and `undefined` become the literal
strings "null" and "undefined". -/
def JSValue.toDOMString : JSValue → String
  | .str s => s
  | .null => "null"
  | .undefined => "undefined"

/-- From `src/utils/auth.js`:
`isAuthenticated = () => localStorage.getItem('authToken') !== null`. -/
def isAuthenticated (s : Store) : Bool :=
  getItem s "authToken" ≠ none

/-- From `src/utils/auth.js`:
`setAuthToken = (token) => localStorage.setItem('authToken', token)`.
The argument is a JS value, coerced to a DOM string by `setItem`. -/
def setAuthToken (s : Store) (token : JSValue) : Store :=
  setItem s "authToken" token.toDOMString

/-- From `src/utils/auth.js`:
`removeAuthToken = () => localStorage.removeItem('authToken')`. -/
def removeAuthToken (s : Store) : Store :=
  removeItem s "authToken"

/-- From `src/utils/auth.js`:
`getAuthToken = () => localStorage.getItem('authToken')`. -/
def getAuthToken (s : Store) : Option String :=
  getItem s "authToken"

/-- The value a guard evaluation returns: either a `<Navigate to replace>`
redirect element or the child content, rendered unchanged. -/
inductive RenderResult (α : Type) where
  | navigate (target : String) (replaceHistory : Bool)
  | render (children : α)
deriving DecidableEq

/-- From `src/components/ProtectedRoute.js`:
`if (!isAuthenticated()) return <Navigate to="/login" replace />;
return children;`. -/
def ProtectedRoute (s : Store) {α : Type} (children : α) : RenderResult α :=
  if !(isAuthenticated s) then .navigate "/login" true else .render children

/-- Browser history as a stack of locations, most recent first. -/
abbrev History : Type := List String

/-- Effect of a guard evaluation on the browser history: a `Navigate` with
`replace` substitutes the top history entry, without `replace` it pushes a
new one; rendering children leaves the history unchanged. -/
def applyResult (h : History) : RenderResult α → History
  | .navigate tgt r => if r then tgt :: h.tail else tgt :: h
  | .render _ => h

/-- One auth-layer store operation: `setAuthToken`, `removeAuthToken`, or a
pure read (`getAuthToken` / `isAuthenticated`, which do not write). -/
inductive AuthOp where
  | set (token : JSValue)
  | remove
  | read
deriving DecidableEq

/-- The store produced by one auth-layer operation. -/
def applyOp (s : Store) : AuthOp → Store
  | .set token => setAuthToken s token
  | .remove => removeAuthToken s
  | .read => s

/-- The store produced by a sequence of auth-layer operations. -/
def runOps (s : Store) : List AuthOp → Store
  | [] => s
  | op :: rest => runOps (applyOp s op) rest

/-- Number of entries stored under key `k`. -/
def countKey (s : Store) (k : String) : Nat :=
  match s with
  | [] => 0
  | (k', _) :: rest => (if k' = k then 1 else 0) + countKey rest k

/-! ## Helper lemmas about the storage model -/

/-- Reading back a key just written returns the written value. -/
theorem getItem_setItem_self (s : Store) (k v : String) :
    getItem (setItem s k v) k = some v := by
  induction s with
  | nil => simp [setItem, getItem]
  | cons hd rest ih =>
    obtain ⟨k', v'⟩ := hd
    by_cases h : k' = k
    · simp [setItem, getItem, h]
    · simp [setItem, getItem, h, ih]

/-- Writing one key leaves every other key unchanged. -/
theorem getItem_setItem_ne (s : Store) (k k' v : String) (h : k' ≠ k) :
    getItem (setItem s k v) k' = getItem s k' := by
  induction s with
  | nil => simp [setItem, getItem, Ne.symm h]
  | cons hd rest ih =>
    obtain ⟨k₀, v₀⟩ := hd
    by_cases h₀ : k₀ = k
    · subst h₀
      simp [setItem, getItem, Ne.symm h]
    · simp only [setItem, if_neg h₀, getItem]
      by_cases h₁ : k₀ = k'
      · simp [h₁]
      · simp [h₁, ih]

/-- Reading a removed key returns the absent marker. -/
theorem getItem_removeItem_self (s : Store) (k : String) :
    getItem (removeItem s k) k = none := by
  induction s with
  | nil => simp [removeItem, getItem]
  | cons hd rest ih =>
    obtain ⟨k', v'⟩ := hd
    by_cases h : k' = k
    · simp [removeItem, h, ih]
    · simp [removeItem, getItem, h, ih]

/-- Removing one key leaves every other key unchanged. -/
theorem getItem_removeItem_ne (s : Store) (k k' : String) (h : k' ≠ k) :
    getItem (removeItem s k) k' = getItem s k' := by
  induction s with
  | nil => simp [removeItem]
  | cons hd rest ih =>
    obtain ⟨k₀, v₀⟩ := hd
    by_cases h₀ : k₀ = k
    · subst h₀
      simp only [removeItem, if_pos rfl, getItem, ih]
      simp [Ne.symm h, ih]
    · simp only [removeItem, if_neg h₀, getItem]
      by_cases h₁ : k₀ = k'
      · simp [h₁]
      · simp [h₁, ih]

/-- Removing an absent key is a no-op: the store is unchanged. -/
theorem removeItem_of_getItem_none (s : Store) (k : String)
    (h : getItem s k = none) : removeItem s k = s := by
  induction s with
  | nil => simp [removeItem]
  | cons hd rest ih =>
    obtain ⟨k', v'⟩ := hd
    by_cases h₀ : k' = k
    · simp [getItem, h₀] at h
    · simp only [getItem, if_neg h₀] at h
      simp [removeItem, h₀, ih h]

/-- Removing a key twice equals removing it once. -/
theorem removeItem_idem (s : Store) (k : String) :
    removeItem (removeItem s k) k = removeItem s k :=
  removeItem_of_getItem_none _ _ (getItem_removeItem_self s k)

/-- Writing a key leaves at most one entry for it when at most one existed. -/
theorem countKey_setItem_self (s : Store) (k v : String) :
    countKey (setItem s k v) k = max (countKey s k) 1 := by
  induction s with
  | nil => simp [setItem, countKey]
  | cons hd rest ih =>
    obtain ⟨k', v'⟩ := hd
    by_cases h : k' = k
    · simp [setItem, countKey, h]
    · simp [setItem, countKey, h, ih]

/-- Removing a key leaves no entry for it. -/
theorem countKey_removeItem_self (s : Store) (k : String) :
    countKey (removeItem s k) k = 0 := by
  induction s with
  | nil => simp [removeItem, countKey]
  | cons hd rest ih =>
    obtain ⟨k', v'⟩ := hd
    by_cases h : k' = k
    · simp [removeItem, h, ih]
    · simp [removeItem, countKey, h, ih]

/-- The authentication predicate is presence of the token slot. -/
theorem isAuthenticated_eq_isSome (s : Store) :
    isAuthenticated s = (getAuthToken s).isSome := by
  simp only [isAuthenticated, getAuthToken]
  cases getItem s "authToken" <;> simp

/-- The authentication predicate is false exactly when the slot is absent. -/
theorem isAuthenticated_false_iff (s : Store) :
    isAuthenticated s = false ↔ getAuthToken s = none := by
  rw [isAuthenticated_eq_isSome]
  cases h : getAuthToken s <;> simp

/-- Each auth-layer operation keeps at most one entry in the token slot. -/
theorem countKey_applyOp (s : Store) (op : AuthOp)
    (h : countKey s "authToken" ≤ 1) :
    countKey (applyOp s op) "authToken" ≤ 1 := by
  cases op with
  | set token =>
    simp only [applyOp, setAuthToken, countKey_setItem_self]
    omega
  | remove =>
    simp [applyOp, removeAuthToken, countKey_removeItem_self]
  | read => exact h

/-- Each auth-layer operation leaves keys other than the token slot alone. -/
theorem getItem_applyOp_ne (s : Store) (op : AuthOp) (k : String)
    (h : k ≠ "authToken") :
    getItem (applyOp s op) k = getItem s k := by
  cases op with
  | set token => exact getItem_setItem_ne s _ k _ h
  | remove => exact getItem_removeItem_ne s _ k h
  | read => rfl

/-! ## Claim theorems -/

/-- C1: whenever the stored token is absent (`getAuthToken` returns the
absent marker), `ProtectedRoute` produces a redirect instruction targeting
"/login" (a `Navigate` with replace semantics) and does not render its
children. -/
theorem guard_no_token_redirects {α : Type} (s : Store) (children : α)
    (h : getAuthToken s = none) :
    ProtectedRoute s children = RenderResult.navigate "/login" true := by
  have hf : isAuthenticated s = false := (isAuthenticated_false_iff s).mpr h
  simp [ProtectedRoute, hf]

/-- Witness for C1 at the empty store. -/
theorem guard_no_token_redirects_witness :
    getAuthToken Store.empty = none ∧
      ProtectedRoute Store.empty (0 : Nat) = RenderResult.navigate "/login" true :=
  ⟨rfl, guard_no_token_redirects Store.empty 0 rfl⟩

/-- C2: whenever `getAuthToken` returns any non-null string — the empty
string or any malformed value included — `ProtectedRoute` renders its
children unchanged and issues no redirect; no further check is made on the
token's contents. -/
theorem guard_token_renders {α : Type} (s : Store) (children : α) (v : String)
    (h : getAuthToken s = some v) :
    ProtectedRoute s children = RenderResult.render children := by
  have ht : isAuthenticated s = true := by
    rw [isAuthenticated_eq_isSome, h]
    rfl
  simp [ProtectedRoute, ht]

/-- Witness for C2 at a store holding the empty string as token. -/
theorem guard_token_renders_witness :
    getAuthToken [("authToken", "")] = some "" ∧
      ProtectedRoute [("authToken", "")] (0 : Nat) = RenderResult.render 0 :=
  ⟨by decide, guard_token_renders [("authToken", "")] 0 "" (by decide)⟩

/-- C3: a redirect of an unauthorized evaluation replaces the current
history entry rather than pushing one: starting from a history whose top is
the guarded location "/dashboard", the resulting history is "/login" on top
of the remaining entries, and "/dashboard" is no longer reachable by
back-navigation (it occurs nowhere in the new history when it occurred only
at the replaced top). -/
theorem redirect_replaces_history {α : Type} (s : Store) (children : α)
    (rest : History) (h : getAuthToken s = none)
    (hrest : "/dashboard" ∉ rest) :
    applyResult ("/dashboard" :: rest) (ProtectedRoute s children) =
        "/login" :: rest ∧
      "/dashboard" ∉
        applyResult ("/dashboard" :: rest) (ProtectedRoute s children) := by
  have hf : isAuthenticated s = false := (isAuthenticated_false_iff s).mpr h
  refine ⟨?_, ?_⟩ <;>
    simp [ProtectedRoute, hf, applyResult, hrest]

/-- Witness for C3 at the empty store and a singleton history. -/
theorem redirect_replaces_history_witness :
    applyResult ["/dashboard"] (ProtectedRoute Store.empty (0 : Nat)) =
        ["/login"] ∧
      "/dashboard" ∉ applyResult ["/dashboard"] (ProtectedRoute Store.empty (0 : Nat)) :=
  redirect_replaces_history Store.empty 0 [] rfl (by decide)

/-- C4: in every store state, `isAuthenticated` returns true exactly when
`getAuthToken` does not return the absent marker; the check depends only on
presence of the slot. -/
theorem isAuthenticated_iff_token_present (s : Store) :
    isAuthenticated s = true ↔ getAuthToken s ≠ none := by
  rw [isAuthenticated_eq_isSome]
  cases getAuthToken s <;> simp

/-- C5: from any store state, immediately after `setAuthToken "abc"` the
call `getAuthToken` returns "abc" and `isAuthenticated` returns true
(read-after-write consistency, no validation of the written value). -/
theorem set_then_get_consistency (s : Store) :
    getAuthToken (setAuthToken s (JSValue.str "abc")) = some "abc" ∧
      isAuthenticated (setAuthToken s (JSValue.str "abc")) = true := by
  have hget : getAuthToken (setAuthToken s (JSValue.str "abc")) = some "abc" :=
    getItem_setItem_self s "authToken" "abc"
  refine ⟨hget, ?_⟩
  rw [isAuthenticated_eq_isSome, hget]
  rfl

/-- C6: `removeAuthToken` is idempotent: from any store state,
`isAuthenticated` is false after one call and after a second call, the
second call changes nothing, and clearing an already-empty slot is a no-op
returning the store unchanged (no error is modelled because none can
occur). -/
theorem removeAuthToken_idempotent (s : Store) :
    isAuthenticated (removeAuthToken s) = false ∧
      isAuthenticated (removeAuthToken (removeAuthToken s)) = false ∧
      removeAuthToken (removeAuthToken s) = removeAuthToken s ∧
      (getAuthToken s = none → removeAuthToken s = s) := by
  have h₁ : isAuthenticated (removeAuthToken s) = false :=
    (isAuthenticated_false_iff _).mpr (getItem_removeItem_self s "authToken")
  have h₂ : removeAuthToken (removeAuthToken s) = removeAuthToken s :=
    removeItem_idem s "authToken"
  refine ⟨h₁, ?_, h₂, fun h => removeItem_of_getItem_none s "authToken" h⟩
  rw [h₂]
  exact h₁

/-- Witness for C6: evaluation at a one-token store and at the empty store,
the latter discharging the no-op clause concretely. -/
theorem removeAuthToken_idempotent_witness :
    isAuthenticated (removeAuthToken [("authToken", "tok")]) = false ∧
      removeAuthToken Store.empty = Store.empty :=
  ⟨(removeAuthToken_idempotent [("authToken", "tok")]).1,
   (removeAuthToken_idempotent Store.empty).2.2.2 rfl⟩

/-- C7: end-to-end from any initial store state: after
`setAuthToken "tok1"` the user is authenticated; after a subsequent
`removeAuthToken` the user is not, and a guard evaluation on a protected
location produces a redirect to "/login". -/
theorem end_to_end_session_flow {α : Type} (s : Store) (children : α) :
    isAuthenticated (setAuthToken s (JSValue.str "tok1")) = true ∧
      isAuthenticated (removeAuthToken (setAuthToken s (JSValue.str "tok1"))) = false ∧
      ProtectedRoute (removeAuthToken (setAuthToken s (JSValue.str "tok1"))) children =
        RenderResult.navigate "/login" true := by
  have hset : getAuthToken (setAuthToken s (JSValue.str "tok1")) = some "tok1" :=
    getItem_setItem_self s "authToken" "tok1"
  have h₁ : isAuthenticated (setAuthToken s (JSValue.str "tok1")) = true := by
    rw [isAuthenticated_eq_isSome, hset]
    rfl
  have hnone :
      getAuthToken (removeAuthToken (setAuthToken s (JSValue.str "tok1"))) = none :=
    getItem_removeItem_self _ "authToken"
  have h₂ :
      isAuthenticated (removeAuthToken (setAuthToken s (JSValue.str "tok1"))) = false :=
    (isAuthenticated_false_iff _).mpr hnone
  exact ⟨h₁, h₂, by simp [ProtectedRoute, h₂]⟩

/-- C8: single-slot invariant: every auth-layer operation addresses the
fixed key "authToken", so no sequence of operations grows the token slot
beyond one entry, and keys other than "authToken" are never touched. -/
theorem single_slot_invariant (s : Store) (ops : List AuthOp)
    (h : countKey s "authToken" ≤ 1) :
    countKey (runOps s ops) "authToken" ≤ 1 ∧
      ∀ k, k ≠ "authToken" → getItem (runOps s ops) k = getItem s k := by
  induction ops generalizing s with
  | nil => exact ⟨h, fun _ _ => rfl⟩
  | cons op rest ih =>
    obtain ⟨hc, hframe⟩ := ih (applyOp s op) (countKey_applyOp s op h)
    refine ⟨hc, fun k hk => ?_⟩
    rw [runOps, hframe k hk, getItem_applyOp_ne s op k hk]

/-- Witness for C8: a four-operation sequence from the empty store keeps at
most one token entry and leaves an unrelated key untouched. -/
theorem single_slot_invariant_witness :
    countKey (runOps Store.empty
        [AuthOp.set (JSValue.str "a"), AuthOp.set (JSValue.str "b"),
         AuthOp.read, AuthOp.set JSValue.null]) "authToken" ≤ 1 ∧
      getItem (runOps Store.empty
        [AuthOp.set (JSValue.str "a"), AuthOp.set (JSValue.str "b"),
         AuthOp.read, AuthOp.set JSValue.null]) "user" =
        getItem Store.empty "user" :=
  ⟨(single_slot_invariant Store.empty
      [AuthOp.set (JSValue.str "a"), AuthOp.set (JSValue.str "b"),
       AuthOp.read, AuthOp.set JSValue.null] (by decide)).1,
   (single_slot_invariant Store.empty
      [AuthOp.set (JSValue.str "a"), AuthOp.set (JSValue.str "b"),
       AuthOp.read, AuthOp.set JSValue.null] (by decide)).2 "user" (by decide)⟩

/-- C9: calling `setAuthToken` with any argument — `null` and `undefined`
included — leaves the store authenticated: the stored value is the string
coercion of the argument (the literal "null" for `null`), never the absent
marker, so `isAuthenticated` returns true afterwards. -/
theorem setAuthToken_always_authenticates (s : Store) (v : JSValue) :
    isAuthenticated (setAuthToken s v) = true ∧
      getAuthToken (setAuthToken s v) = some v.toDOMString ∧
      JSValue.toDOMString JSValue.null = "null" := by
  have hget : getAuthToken (setAuthToken s v) = some v.toDOMString :=
    getItem_setItem_self s "authToken" v.toDOMString
  refine ⟨?_, hget, rfl⟩
  rw [isAuthenticated_eq_isSome, hget]
  rfl

/-- C10: the guard's decision is independent of the token's contents: two
store states agreeing on presence of the "authToken" slot yield identical
guard output on the same children. -/
theorem guard_presence_noninterference {α : Type} (s₁ s₂ : Store)
    (children : α)
    (h : getAuthToken s₁ = none ↔ getAuthToken s₂ = none) :
    ProtectedRoute s₁ children = ProtectedRoute s₂ children := by
  by_cases h₁ : getAuthToken s₁ = none
  · have hf₁ : isAuthenticated s₁ = false := (isAuthenticated_false_iff _).mpr h₁
    have hf₂ : isAuthenticated s₂ = false := (isAuthenticated_false_iff _).mpr (h.mp h₁)
    simp [ProtectedRoute, hf₁, hf₂]
  · have h₂ : ¬ getAuthToken s₂ = none := fun hh => h₁ (h.mpr hh)
    have ht₁ : isAuthenticated s₁ = true := by
      cases hb : isAuthenticated s₁ with
      | false => exact absurd ((isAuthenticated_false_iff _).mp hb) h₁
      | true => rfl
    have ht₂ : isAuthenticated s₂ = true := by
      cases hb : isAuthenticated s₂ with
      | false => exact absurd ((isAuthenticated_false_iff _).mp hb) h₂
      | true => rfl
    simp [ProtectedRoute, ht₁, ht₂]

/-- Witness for C10: two stores holding different token values produce the
same guard output. -/
theorem guard_presence_noninterference_witness :
    ProtectedRoute [("authToken", "secretA")] (0 : Nat) =
      ProtectedRoute [("authToken", "otherB")] (0 : Nat) :=
  guard_presence_noninterference [("authToken", "secretA")]
    [("authToken", "otherB")] 0 (by decide)
